import Mathlib

/-!
Shallow embedding of `src/charm.py` from charm-prometheus-hardware-exporter.

The charm is a single-threaded event-driven controller.  Each handler is
modelled as a pure function of the persisted `StoredState`, the transient
facts observed during the event (`Env`), and the current unit status.
Exceptions escaping a handler are modelled with `Except`.
-/

namespace Charm

/-- `ops.model` status values assignable to `self.model.unit.status`. -/
inductive OpStatus where
  | maintenance (msg : String)
  | blocked (msg : String)
  | active (msg : String)
  deriving DecidableEq, Repr

/-- A Python exception as observed by a caller of the charm code: the
exception itself plus its `__cause__` (set by `raise ... from err`).
In the modelled code a cause is never itself chained, so the cause is a
base exception. -/
inductive PyExcBase where
  | exporterError (msg : String)
  | other (msg : String)
  deriving DecidableEq, Repr

structure PyExc where
  base : PyExcBase
  cause : Option PyExcBase
  deriving DecidableEq, Repr

/-- `config.py` is not part of the sources.  Modelled from the spec:
§4.2 and §8 fix the retry count `R = 3`. -/
def EXPORTER_HEALTH_RETRY_COUNT : Nat := 3

/-- `config.py` is not part of the sources.  Modelled from the spec:
the fatal condition message of §4.2 ("exporter crashed"); the claims do
not depend on its exact text. -/
def EXPORTER_CRASH_MSG : String := "Exporter crashed unexpectedly"

/-- The persisted `StoredState` flags (`_stored.set_default` in `__init__`). -/
structure StoredState where
  resource_installed : Bool
  exporter_installed : Bool
  deriving DecidableEq, Repr

/-- Outcome of `redfish_obj.login(auth="session")` in the three ways the
source distinguishes them (`else` / `except InvalidCredentialsError` /
`except Exception`). -/
inductive LoginOutcome where
  | success
  | invalidCredentials (msg : String)
  | otherError (msg : String)
  deriving DecidableEq, Repr

/-- External facts consumed by `redfish_conn_params_valid`:
whether `get_redfish_conn_params()` returns a non-empty dict (redfish
available), whether `redfish_client(...)` itself raises, and the login
outcome if a client object is obtained. -/
structure RedfishEnv where
  conn_params_available : Bool
  client_creation_raises : Option String
  login : LoginOutcome
  deriving DecidableEq, Repr

/-- Observable outcome of one evaluation of the `redfish_conn_params_valid`
property: the returned tri-state, whether a client object was created,
and whether `redfish_obj.logout()` ran in the `finally` block. -/
structure RedfishResult where
  result : Option Bool
  client_created : Bool
  logout_called : Bool
  deriving DecidableEq, Repr

/-- `redfish_conn_params_valid` (charm.py:271-307).  Returns `none` when
redfish connection parameters are unavailable; otherwise attempts a
session and reports `some true` / `some false`.  The `finally` block
logs out iff `redfish_obj` is truthy, i.e. iff `redfish_client` returned. -/
def redfish_conn_params_valid (env : RedfishEnv) : RedfishResult :=
  if ¬ env.conn_params_available then
    { result := none, client_created := false, logout_called := false }
  else
    match env.client_creation_raises with
    | some _ =>
      -- `redfish_client` raised: caught by `except Exception`, result False,
      -- `redfish_obj` still None so no logout.
      { result := some false, client_created := false, logout_called := false }
    | none =>
      match env.login with
      | .success =>
        { result := some true, client_created := true, logout_called := true }
      | .invalidCredentials _ =>
        { result := some false, client_created := true, logout_called := true }
      | .otherError _ =>
        { result := some false, client_created := true, logout_called := true }

/-- The declared configuration options read by `validate_exporter_configs`. -/
structure Config where
  exporter_port : Int
  exporter_log_level : String
  deriving DecidableEq, Repr

def allowed_choices : List String := ["DEBUG", "INFO", "WARNING", "ERROR", "CRITICAL"]

/-- Python's `str.upper()` restricted to basic latin letters, which is
all the source ever compares against (`allowed_choices` is ASCII). -/
def py_upper (s : String) : String := String.mk (s.data.map Char.toUpper)

/-- `validate_exporter_configs` (charm.py:232-254): port range, then
log level (case-insensitive), then the redfish credential tri-state,
first failure returned. -/
def validate_exporter_configs (cfg : Config) (renv : RedfishEnv) : Bool × String :=
  if ¬ (1 ≤ cfg.exporter_port ∧ cfg.exporter_port ≤ 65535) then
    (false, "Invalid config: 'exporter-port'")
  else if ¬ (py_upper cfg.exporter_log_level ∈ allowed_choices) then
    (false, "Invalid config: 'exporter-log-level'")
  else if (redfish_conn_params_valid renv).result = some false then
    (false, "Invalid config: 'redfish-username' or 'redfish-password'")
  else
    (true, "Exporter config is valid.")

/-- Transient facts observed during one event dispatch. -/
structure Env where
  config : Config
  redfish : RedfishEnv
  num_cos_agent_relations : Nat
  hw_tool_check : Bool × String
  exporter_healthy : Bool
  /-- `some msg` if the i-th call (1-indexed) to `self.exporter.restart()`
  inside `restart_exporter` raises. -/
  restart_raises : Nat → Option String
  /-- result of `self.exporter.check_active()` after `n` restart calls
  have completed; it changes only when a restart is performed. -/
  active_after : Nat → Bool
  /-- result of `self.exporter.template.render_config(...)`. -/
  render_ok : Bool

/-- `exporter_enabled` property (charm.py:261-264). -/
def exporter_enabled (env : Env) : Bool :=
  env.num_cos_agent_relations ≠ 0

/-- `too_many_cos_agent_relations` property (charm.py:266-269). -/
def too_many_cos_agent_relations (env : Env) : Bool :=
  env.num_cos_agent_relations > 1

/-- The retry loop of `restart_exporter` (charm.py:153-159), run with
`fuel` attempts remaining and `n` restart calls already performed.
Returns the total number of restart calls made and the exception, if
the body raised. -/
def restartLoop (env : Env) : Nat → Nat → Nat × Option PyExcBase
  | 0, n => (n, none)
  | fuel + 1, n =>
    match env.restart_raises (n + 1) with
    | some m => (n + 1, some (.other m))
    | none =>
      if env.active_after (n + 1) then (n + 1, none)
      else restartLoop env fuel (n + 1)

/-- The `try` block of `restart_exporter` (charm.py:152-162): the retry
loop followed by the final `check_active` guard that raises
`ExporterError(EXPORTER_CRASH_MSG)`. -/
def restart_exporter_try (env : Env) : Nat × Except PyExcBase Unit :=
  match restartLoop env EXPORTER_HEALTH_RETRY_COUNT 0 with
  | (n, some e) => (n, .error e)
  | (n, none) =>
    if ¬ env.active_after n then (n, .error (.exporterError EXPORTER_CRASH_MSG))
    else (n, .ok ())

/-- `restart_exporter` (charm.py:150-165).  Any exception escaping the
`try` block — including the `ExporterError` raised after exhaustion — is
caught by `except Exception as err` and re-raised as
`ExporterError(EXPORTER_CRASH_MSG) from err`.  The first component counts
the `self.exporter.restart()` calls performed. -/
def restart_exporter (env : Env) : Nat × Except PyExc Unit :=
  match restart_exporter_try env with
  | (n, .ok ()) => (n, .ok ())
  | (n, .error e) => (n, .error { base := .exporterError EXPORTER_CRASH_MSG, cause := some e })

/-- The charm state visible to the claims: persisted flags and the unit
status last written. -/
structure CharmState where
  stored : StoredState
  unit_status : OpStatus
  deriving DecidableEq, Repr

/-- `_on_update_status` (charm.py:119-148): the idempotent status
evaluator.  An `ExporterError` from `restart_exporter` propagates to the
caller as `.error`. -/
def on_update_status (env : Env) (s : CharmState) : Except PyExc CharmState :=
  if ¬ s.stored.resource_installed then
    .ok s
  else if ¬ exporter_enabled env then
    .ok { s with unit_status := .blocked "Missing relation: [cos-agent]" }
  else if too_many_cos_agent_relations env then
    .ok { s with unit_status := .blocked "Cannot relate to more than one grafana-agent" }
  else if ¬ (validate_exporter_configs env.config env.redfish).1 then
    .ok { s with unit_status := .blocked (validate_exporter_configs env.config env.redfish).2 }
  else
    if ¬ env.hw_tool_check.1 then
      .ok { s with unit_status := .blocked env.hw_tool_check.2 }
    else if ¬ env.exporter_healthy then
      match (restart_exporter env).2 with
      | .error e => .error e
      | .ok () => .ok { s with unit_status := .active "Unit is ready" }
    else
      .ok { s with unit_status := .active "Unit is ready" }

/-- Trace of one `_on_config_changed` dispatch: whether `event.defer()`
ran, which processing steps ran after it, and the resulting state. -/
structure ConfigChangedTrace where
  deferred : Bool
  validated : Bool
  render_called : Bool
  restart_called : Bool
  update_status_called : Bool
  final : Except PyExc CharmState
  deriving Repr

/-- `_on_config_changed` (charm.py:167-194).  Note the source defers the
event when `resource_installed` is false but does NOT return: execution
continues into the `exporter_enabled` block and the final
`_on_update_status` call. -/
def on_config_changed (env : Env) (s : CharmState) : ConfigChangedTrace :=
  let deferred := ! s.stored.resource_installed
  if exporter_enabled env then
    if ¬ (validate_exporter_configs env.config env.redfish).1 then
      let bad := OpStatus.blocked (validate_exporter_configs env.config env.redfish).2
      { deferred := deferred, validated := true, render_called := false,
        restart_called := false, update_status_called := false,
        final := .ok { s with unit_status := bad } }
    else if ¬ env.render_ok then
      let msg := "Failed to configure exporter, please check if the server is healthy."
      { deferred := deferred, validated := true, render_called := true,
        restart_called := false, update_status_called := false,
        final := .ok { s with unit_status := .blocked msg } }
    else
      { deferred := deferred, validated := true, render_called := true,
        restart_called := true, update_status_called := true,
        final := on_update_status env s }
  else
    { deferred := deferred, validated := false, render_called := false,
      restart_called := false, update_status_called := true,
      final := on_update_status env s }

/-- `_on_remove` (charm.py:104-117): clears `resource_installed`
unconditionally, then sets `exporter_installed := not success` where
`success` is the result of `self.exporter.uninstall()`.  The unit
status is not written. -/
def on_remove (uninstall_success : Bool) (s : CharmState) : CharmState :=
  { s with stored :=
      { resource_installed := false
        exporter_installed := ¬ uninstall_success } }

/-! Concrete fixtures used by witnesses and counterexamples. -/

def renv_absent : RedfishEnv :=
  { conn_params_available := false, client_creation_raises := none, login := .success }

def renv_bad_creds : RedfishEnv :=
  { conn_params_available := true, client_creation_raises := none,
    login := .invalidCredentials "bad credentials" }

def cfg_ok : Config := { exporter_port := 8080, exporter_log_level := "debug" }

def env_base : Env :=
  { config := cfg_ok
    redfish := renv_absent
    num_cos_agent_relations := 1
    hw_tool_check := (true, "")
    exporter_healthy := true
    restart_raises := fun _ => none
    active_after := fun _ => false
    render_ok := true }

def env_rel0 : Env := { env_base with num_cos_agent_relations := 0 }

def env_sick : Env := { env_base with exporter_healthy := false }

def st_installed : CharmState :=
  { stored := { resource_installed := true, exporter_installed := true }
    unit_status := .maintenance "Installing resources..." }

def st_uninstalled : CharmState :=
  { stored := { resource_installed := false, exporter_installed := false }
    unit_status := .blocked "Failed to install tools" }

/-! ## Helper lemmas -/

/-- The status decision of `_on_update_status` as a function of the
observed facts alone; used to factor the proofs below. -/
def statusOf (env : Env) : Except PyExc OpStatus :=
  if ¬ exporter_enabled env then
    .ok (.blocked "Missing relation: [cos-agent]")
  else if too_many_cos_agent_relations env then
    .ok (.blocked "Cannot relate to more than one grafana-agent")
  else if ¬ (validate_exporter_configs env.config env.redfish).1 then
    .ok (.blocked (validate_exporter_configs env.config env.redfish).2)
  else if ¬ env.hw_tool_check.1 then
    .ok (.blocked env.hw_tool_check.2)
  else if ¬ env.exporter_healthy then
    match (restart_exporter env).2 with
    | .error e => .error e
    | .ok () => .ok (.active "Unit is ready")
  else
    .ok (.active "Unit is ready")

theorem on_update_status_eq_map (env : Env) (s : CharmState)
    (hres : s.stored.resource_installed = true) :
    on_update_status env s =
      (statusOf env).map fun st => { s with unit_status := st } := by
  unfold on_update_status statusOf
  rw [if_neg (by simp [hres])]
  split_ifs <;> first
    | rfl
    | (cases hr : (restart_exporter env).2 <;> simp [Except.map])

theorem restartLoop_step (env : Env) (fuel n : Nat)
    (hr : env.restart_raises (n + 1) = none)
    (ha : env.active_after (n + 1) = false) :
    restartLoop env (fuel + 1) n = restartLoop env fuel (n + 1) := by
  simp [restartLoop, hr, ha]

theorem restartLoop_hit (env : Env) (fuel n : Nat)
    (hr : env.restart_raises (n + 1) = none)
    (ha : env.active_after (n + 1) = true) :
    restartLoop env (fuel + 1) n = (n + 1, none) := by
  simp [restartLoop, hr, ha]

/-! ## Claims -/

/-- C8: when `resource_installed` is false, `_on_update_status` returns
without writing any status: the state, including the previously set
Blocked status, is returned untouched. -/
theorem update_status_frame (env : Env) (s : CharmState)
    (h : s.stored.resource_installed = false) :
    on_update_status env s = .ok s := by
  simp [on_update_status, h]

theorem update_status_frame_witness :
    on_update_status env_base st_uninstalled = .ok st_uninstalled :=
  update_status_frame env_base st_uninstalled rfl

/-- C9: in `redfish_conn_params_valid`, on every execution path on which
a redfish client object was created, the `finally` block invokes
`logout`, so no authenticated session is leaked. -/
theorem redfish_session_teardown (renv : RedfishEnv)
    (h : (redfish_conn_params_valid renv).client_created = true) :
    (redfish_conn_params_valid renv).logout_called = true := by
  unfold redfish_conn_params_valid at h ⊢
  rcases renv with ⟨avail, cr, login⟩
  cases avail <;> cases cr <;> cases login <;> simp_all

theorem redfish_session_teardown_witness :
    (redfish_conn_params_valid renv_bad_creds).logout_called = true :=
  redfish_session_teardown renv_bad_creds rfl

/-- C10: after `_on_remove`, `resource_installed` is false
unconditionally and `exporter_installed` is true exactly when the
exporter uninstall failed; the unit status is not written. -/
theorem remove_flags (uninstall_success : Bool) (s : CharmState) :
    (on_remove uninstall_success s).stored.resource_installed = false ∧
    ((on_remove uninstall_success s).stored.exporter_installed = true ↔
      uninstall_success = false) ∧
    (on_remove uninstall_success s).unit_status = s.unit_status := by
  cases uninstall_success <;> simp [on_remove]

theorem remove_flags_witness :
    (on_remove false st_installed).stored.resource_installed = false ∧
    ((on_remove false st_installed).stored.exporter_installed = true ↔
      (false : Bool) = false) ∧
    (on_remove false st_installed).unit_status = st_installed.unit_status :=
  remove_flags false st_installed

/-- C6: `validate_exporter_configs` applies port, then log level, then
credential rules and returns the first failure: port 0 and 65536 fail
the port rule for every level and every redfish outcome, level
`"verbose"` fails the level rule for every redfish outcome, and
`8080`/`"debug"` passes through to success. -/
theorem validate_configs_rules :
    (∀ lvl renv,
      validate_exporter_configs { exporter_port := 0, exporter_log_level := lvl } renv =
        (false, "Invalid config: 'exporter-port'")) ∧
    (∀ lvl renv,
      validate_exporter_configs { exporter_port := 65536, exporter_log_level := lvl } renv =
        (false, "Invalid config: 'exporter-port'")) ∧
    (∀ renv,
      validate_exporter_configs { exporter_port := 8080, exporter_log_level := "verbose" } renv =
        (false, "Invalid config: 'exporter-log-level'")) ∧
    (py_upper "debug" ∈ allowed_choices ∧ py_upper "verbose" ∉ allowed_choices) ∧
    validate_exporter_configs { exporter_port := 8080, exporter_log_level := "debug" } renv_absent =
      (true, "Exporter config is valid.") := by
  refine ⟨fun lvl renv => ?_, fun lvl renv => ?_, fun renv => ?_, by decide, by decide⟩
  · have hp : ¬ ((1 : Int) ≤ 0 ∧ (0 : Int) ≤ 65535) := by decide
    simp [validate_exporter_configs, hp]
  · have hp : ¬ ((1 : Int) ≤ 65536 ∧ (65536 : Int) ≤ 65535) := by decide
    simp [validate_exporter_configs, hp]
  · have hp : (1 : Int) ≤ 8080 ∧ (8080 : Int) ≤ 65535 := by decide
    have hl : py_upper "verbose" ∉ allowed_choices := by decide
    simp [validate_exporter_configs, hp, hl]

theorem validate_configs_rules_witness :
    validate_exporter_configs { exporter_port := 0, exporter_log_level := "debug" } renv_absent =
      (false, "Invalid config: 'exporter-port'") :=
  validate_configs_rules.1 "debug" renv_absent

/-- C7: when the credential check reports the unavailable tri-state
(`none`), or anything other than an explicit `some false`,
`validate_exporter_configs` succeeds (given valid port and level); only
`some false` produces the credential failure. -/
theorem redfish_tristate_validity (cfg : Config) (renv : RedfishEnv)
    (hport : 1 ≤ cfg.exporter_port ∧ cfg.exporter_port ≤ 65535)
    (hlvl : py_upper cfg.exporter_log_level ∈ allowed_choices) :
    (renv.conn_params_available = false →
      (redfish_conn_params_valid renv).result = none ∧
      validate_exporter_configs cfg renv = (true, "Exporter config is valid.")) ∧
    ((redfish_conn_params_valid renv).result ≠ some false →
      validate_exporter_configs cfg renv = (true, "Exporter config is valid.")) ∧
    ((redfish_conn_params_valid renv).result = some false →
      validate_exporter_configs cfg renv =
        (false, "Invalid config: 'redfish-username' or 'redfish-password'")) := by
  refine ⟨fun hav => ⟨?_, ?_⟩, fun hne => ?_, fun heq => ?_⟩
  · simp [redfish_conn_params_valid, hav]
  · simp [validate_exporter_configs, redfish_conn_params_valid, hav, hport, hlvl]
  · simp [validate_exporter_configs, hport, hlvl, hne]
  · simp [validate_exporter_configs, hport, hlvl, heq]

theorem redfish_tristate_validity_witness :
    (1 ≤ cfg_ok.exporter_port ∧ cfg_ok.exporter_port ≤ 65535) ∧
    py_upper cfg_ok.exporter_log_level ∈ allowed_choices ∧
    (renv_absent.conn_params_available = false →
      (redfish_conn_params_valid renv_absent).result = none ∧
      validate_exporter_configs cfg_ok renv_absent = (true, "Exporter config is valid.")) :=
  ⟨by decide, by decide,
    (redfish_tristate_validity cfg_ok renv_absent (by decide) (by decide)).1⟩

/-- C1: with `resource_installed` true, `_on_update_status` applies its
checks in a fixed order with short-circuit: zero relations blocks with
the missing-relation message regardless of every other condition; more
than one relation blocks with the too-many message; then invalid config
blocks with the validator's reason; then a failed tool check blocks with
the tool message; otherwise, after the health check and a possible
successful restart, the status is Active("Unit is ready"). -/
theorem update_status_precedence (env : Env) (s : CharmState)
    (hres : s.stored.resource_installed = true) :
    (env.num_cos_agent_relations = 0 →
      on_update_status env s =
        .ok { s with unit_status := .blocked "Missing relation: [cos-agent]" }) ∧
    (1 < env.num_cos_agent_relations →
      on_update_status env s =
        .ok { s with unit_status := .blocked "Cannot relate to more than one grafana-agent" }) ∧
    (env.num_cos_agent_relations = 1 →
      (validate_exporter_configs env.config env.redfish).1 = false →
      on_update_status env s =
        .ok { s with unit_status := .blocked (validate_exporter_configs env.config env.redfish).2 }) ∧
    (env.num_cos_agent_relations = 1 →
      (validate_exporter_configs env.config env.redfish).1 = true →
      env.hw_tool_check.1 = false →
      on_update_status env s =
        .ok { s with unit_status := .blocked env.hw_tool_check.2 }) ∧
    (env.num_cos_agent_relations = 1 →
      (validate_exporter_configs env.config env.redfish).1 = true →
      env.hw_tool_check.1 = true →
      env.exporter_healthy = true →
      on_update_status env s = .ok { s with unit_status := .active "Unit is ready" }) ∧
    (env.num_cos_agent_relations = 1 →
      (validate_exporter_configs env.config env.redfish).1 = true →
      env.hw_tool_check.1 = true →
      env.exporter_healthy = false →
      (restart_exporter env).2 = .ok () →
      on_update_status env s = .ok { s with unit_status := .active "Unit is ready" }) := by
  refine ⟨fun h0 => ?_, fun h2 => ?_, fun h1 hv => ?_, fun h1 hv ht => ?_,
    fun h1 hv ht hh => ?_, fun h1 hv ht hh hr => ?_⟩
  · simp [on_update_status, exporter_enabled, hres, h0]
  · have hne : env.num_cos_agent_relations ≠ 0 := by omega
    simp [on_update_status, exporter_enabled, too_many_cos_agent_relations, hres, hne, h2]
  · simp [on_update_status, exporter_enabled, too_many_cos_agent_relations, hres, h1, hv]
  · simp [on_update_status, exporter_enabled, too_many_cos_agent_relations, hres, h1, hv, ht]
  · simp [on_update_status, exporter_enabled, too_many_cos_agent_relations,
      hres, h1, hv, ht, hh]
  · simp [on_update_status, exporter_enabled, too_many_cos_agent_relations,
      hres, h1, hv, ht, hh, hr]

theorem update_status_precedence_witness :
    on_update_status env_rel0 st_installed =
      .ok { st_installed with unit_status := .blocked "Missing relation: [cos-agent]" } :=
  (update_status_precedence env_rel0 st_installed rfl).1 rfl

/-- C2: for a fixed environment of observed facts, `_on_update_status`
is idempotent: re-running it on the state it produced returns that very
state again, so the resulting status is a pure function of the stored
flags and the observed facts. -/
theorem update_status_idempotent (env : Env) (s s' : CharmState)
    (h : on_update_status env s = .ok s') :
    on_update_status env s' = .ok s' := by
  by_cases hres : s.stored.resource_installed = true
  · rw [on_update_status_eq_map env s hres] at h
    cases hst : statusOf env with
    | error e => rw [hst] at h; simp [Except.map] at h
    | ok st =>
      rw [hst] at h
      simp only [Except.map, Except.ok.injEq] at h
      have hres' : s'.stored.resource_installed = true := by
        rw [← h]; exact hres
      rw [on_update_status_eq_map env s' hres', hst]
      simp only [Except.map, Except.ok.injEq]
      rw [← h]
  · have hresf : s.stored.resource_installed = false := by
      cases hb : s.stored.resource_installed
      · rfl
      · exact absurd hb hres
    simp [on_update_status, hresf] at h
    rw [← h]
    simp [on_update_status, hresf]

theorem update_status_idempotent_witness :
    on_update_status env_base { st_installed with unit_status := .active "Unit is ready" } =
      .ok { st_installed with unit_status := .active "Unit is ready" } :=
  update_status_idempotent env_base st_installed
    { st_installed with unit_status := .active "Unit is ready" } rfl

/-- C3 counterexample: at a concrete state with `resource_installed`
false and one cos-agent relation, `_on_config_changed` defers the event
and nevertheless proceeds in the same call: it validates the config,
renders the exporter config, restarts the exporter and invokes the
status evaluation — refuting the claim that deferral short-circuits. -/
theorem config_changed_defer_not_shortcircuit :
    (on_config_changed env_base st_uninstalled).deferred = true ∧
    (on_config_changed env_base st_uninstalled).validated = true ∧
    (on_config_changed env_base st_uninstalled).render_called = true ∧
    (on_config_changed env_base st_uninstalled).restart_called = true ∧
    (on_config_changed env_base st_uninstalled).update_status_called = true :=
  ⟨rfl, rfl, rfl, rfl, rfl⟩

/-- C3 (amended): when `resource_installed` is false,
`_on_config_changed` defers the event but does not return: if the
cos-agent relation count is nonzero it still validates the config in
the same call (and may render and restart); only when the relation
count is zero does no config processing happen, the trailing
`_on_update_status` call being a no-op that leaves the state unchanged. -/
theorem config_changed_defer_behavior (env : Env) (s : CharmState)
    (h : s.stored.resource_installed = false) :
    (on_config_changed env s).deferred = true ∧
    (env.num_cos_agent_relations = 0 →
      (on_config_changed env s).validated = false ∧
      (on_config_changed env s).render_called = false ∧
      (on_config_changed env s).restart_called = false ∧
      (on_config_changed env s).final = .ok s) ∧
    (env.num_cos_agent_relations ≠ 0 →
      (on_config_changed env s).validated = true) := by
  refine ⟨?_, fun h0 => ?_, fun hne => ?_⟩
  · by_cases hc : exporter_enabled env = true
    · simp only [on_config_changed, hc, if_true]
      split_ifs <;> simp [h]
    · simp only [Bool.not_eq_true] at hc
      simp [on_config_changed, hc, h]
  · have hc : exporter_enabled env = false := by simp [exporter_enabled, h0]
    simp [on_config_changed, hc, on_update_status, h]
  · have hc : exporter_enabled env = true := by simp [exporter_enabled, hne]
    simp only [on_config_changed, hc, if_true]
    split_ifs <;> rfl

theorem config_changed_defer_behavior_witness :
    (on_config_changed env_rel0 st_uninstalled).deferred = true ∧
    (on_config_changed env_rel0 st_uninstalled).validated = false :=
  ⟨(config_changed_defer_behavior env_rel0 st_uninstalled rfl).1,
   ((config_changed_defer_behavior env_rel0 st_uninstalled rfl).2.1 rfl).1⟩

/-- C4: with retry count 3 and no restart call raising, if every
liveness probe fails the supervisor performs exactly 3 restart attempts
and then raises the fatal exporter-crashed error exactly once; if the
probe after attempt `i < 3` succeeds (all earlier ones failing), the
loop stops after attempt `i` and nothing is raised. -/
theorem restart_exporter_retry_bound (env : Env)
    (hraise : ∀ i, env.restart_raises i = none) :
    ((∀ i, env.active_after i = false) →
      restart_exporter env =
        (3, .error { base := .exporterError EXPORTER_CRASH_MSG,
                     cause := some (.exporterError EXPORTER_CRASH_MSG) })) ∧
    (∀ i, 1 ≤ i → i < 3 → env.active_after i = true →
      (∀ j, 1 ≤ j → j < i → env.active_after j = false) →
      restart_exporter env = (i, .ok ())) := by
  constructor
  · intro hfail
    have h1 : restartLoop env 3 0 = restartLoop env 2 1 :=
      restartLoop_step env 2 0 (hraise 1) (hfail 1)
    have h2 : restartLoop env 2 1 = restartLoop env 1 2 :=
      restartLoop_step env 1 1 (hraise 2) (hfail 2)
    have h3 : restartLoop env 1 2 = restartLoop env 0 3 :=
      restartLoop_step env 0 2 (hraise 3) (hfail 3)
    have hl : restartLoop env 3 0 = (3, none) := by rw [h1, h2, h3]; rfl
    unfold restart_exporter restart_exporter_try EXPORTER_HEALTH_RETRY_COUNT
    rw [hl]
    simp [hfail 3]
  · intro i hi1 hi3 hact hbefore
    interval_cases i
    · have hl : restartLoop env 3 0 = (1, none) :=
        restartLoop_hit env 2 0 (hraise 1) hact
      unfold restart_exporter restart_exporter_try EXPORTER_HEALTH_RETRY_COUNT
      rw [hl]
      simp [hact]
    · have hb1 : env.active_after 1 = false := hbefore 1 (by omega) (by omega)
      have h1 : restartLoop env 3 0 = restartLoop env 2 1 :=
        restartLoop_step env 2 0 (hraise 1) hb1
      have h2 : restartLoop env 2 1 = (2, none) :=
        restartLoop_hit env 1 1 (hraise 2) hact
      have hl : restartLoop env 3 0 = (2, none) := by rw [h1, h2]
      unfold restart_exporter restart_exporter_try EXPORTER_HEALTH_RETRY_COUNT
      rw [hl]
      simp [hact]

theorem restart_exporter_retry_bound_witness :
    restart_exporter env_sick =
      (3, .error { base := .exporterError EXPORTER_CRASH_MSG,
                   cause := some (.exporterError EXPORTER_CRASH_MSG) }) :=
  (restart_exporter_retry_bound env_sick (fun _ => rfl)).1 (fun _ => rfl)

/-- C5: when all earlier checks pass, the health check fails and
`restart_exporter` raises, the error propagates out of
`_on_update_status` unchanged — it is never converted into a Blocked
status, and Active is not set; and every exception escaping the retry
loop is wrapped into the fatal `ExporterError` with the original
exception as its cause. -/
theorem restart_failure_propagation (env : Env) (s : CharmState) (e : PyExc)
    (hres : s.stored.resource_installed = true)
    (hrel : env.num_cos_agent_relations = 1)
    (hcfg : (validate_exporter_configs env.config env.redfish).1 = true)
    (htool : env.hw_tool_check.1 = true)
    (hhealth : env.exporter_healthy = false)
    (hfail : (restart_exporter env).2 = .error e) :
    on_update_status env s = .error e ∧
    (∀ (e0 : PyExcBase) (n : Nat), restart_exporter_try env = (n, .error e0) →
      restart_exporter env =
        (n, .error { base := .exporterError EXPORTER_CRASH_MSG, cause := some e0 })) := by
  constructor
  · simp [on_update_status, exporter_enabled, too_many_cos_agent_relations,
      hres, hrel, hcfg, htool, hhealth, hfail]
  · intro e0 n h
    simp [restart_exporter, h]

theorem restart_failure_propagation_witness :
    on_update_status env_sick st_installed =
      .error { base := .exporterError EXPORTER_CRASH_MSG,
               cause := some (.exporterError EXPORTER_CRASH_MSG) } :=
  (restart_failure_propagation env_sick st_installed
    { base := .exporterError EXPORTER_CRASH_MSG,
      cause := some (.exporterError EXPORTER_CRASH_MSG) }
    rfl rfl rfl rfl rfl rfl).1

end Charm
